import Mathlib

/-
Verification of the manim-notebook repository's two scripts:
src/src/walkthrough/sample_scene.py (class MyFirstManimNotebook) and
src/scripts/make_manim_notebook_logo.py (class ManimNotebookLogo).

Both files are straight-line Python scripts whose construct methods issue a
fixed sequence of calls into the external manimlib animation library.  The
shallow embedding below records each Python statement as the sequence of
library calls it performs, with exact arguments (numeric literals as exact
rationals), and gives this call language a small executable semantics:
name resolution (a call may only reference mobjects already constructed,
apart from the scene's built-in camera frame), an external-failure semantics
parameterised by an oracle assigning failures to call positions, and a
big-step execution relation used for determinism.
-/

namespace ManimNotebook

/-- Identifiers of the Python variables holding mobjects in the two scripts,
plus the scene's built-in camera frame object referenced as self.frame. -/
inductive MId
  | circle
  | square
  | frame
  | tex_of_M
  | glowdot
  | svg_of_notebook
deriving DecidableEq, Repr

/-- Color constants imported from manimlib that the scripts use. -/
inductive Color
  | BLUE_E
  | BLUE_C
  | RED_D
  | WHITE
deriving DecidableEq, Repr

/-- A 3-component vector, as passed to shift, with exact rational entries. -/
structure Vec3 where
  x : ℚ
  y : ℚ
  z : ℚ
deriving DecidableEq, Repr

/-- Direct mobject setter methods invoked by the scripts. -/
inductive Setter
  | set_stroke (c : Color) (width : ℚ)
  | set_color (c : Color)
  | set_opacity (o : ℚ)
  | shift (v : Vec3)
deriving DecidableEq, Repr

/-- Animation objects passed to self.play.  The animate_set_fill and
animate_set_width forms record the .animate.set_fill and .animate.set_width
animation builders used in sample_scene.py. -/
inductive Anim
  | ShowCreation (m : MId)
  | ReplacementTransform (src : MId) (tgt : MId)
  | Write (m : MId)
  | animate_set_fill (m : MId) (c : Color) (opacity : ℚ)
  | animate_set_width (m : MId) (w : ℚ)
deriving DecidableEq, Repr

/-- Mobject constructors invoked by the scripts, with their literal
arguments.  File names are absolute paths modelled as component lists. -/
inductive Ctor
  | Circle
  | Square
  | Tex (content : String) (font_size : ℚ)
  | GlowDot (color : Color) (radius : ℚ) (glow_factor : ℚ)
  | SVGMobject (file_name : List String) (stroke_width : ℚ)
deriving DecidableEq, Repr

/-- One call into the manimlib library: constructing a mobject and binding it
to a variable, invoking a direct setter method on a mobject, playing a list
of animations, adding a mobject to the scene, or waiting. -/
inductive Call
  | construct (m : MId) (c : Ctor)
  | setter (m : MId) (s : Setter)
  | play (anims : List Anim)
  | add (m : MId)
  | wait (t : ℚ)
deriving DecidableEq, Repr

/-- One Python statement of a construct body: either a plain statement that
performs a sequence of library calls in evaluation order (a chained
expression such as Tex(...).set_color(...).set_opacity(...) performs its
constructor call and then each setter call), or a try/except statement with
a body and a handler.  Neither script contains a try/except; the constructor
is present so that the absence of handlers is a meaningful property. -/
inductive Stmt
  | simple (calls : List Call)
  | tryExcept (body : List Call) (handler : List Call)
deriving DecidableEq, Repr

/-- Calls a statement performs on its successful path, in evaluation order. -/
def callsOfStmt : Stmt → List Call
  | .simple cs => cs
  | .tryExcept body _ => body

/-- Calls a statement list performs on its successful path, in order. -/
def callsOf (ss : List Stmt) : List Call :=
  (ss.map callsOfStmt).flatten

/-- Embedding of MyFirstManimNotebook.construct from
src/src/walkthrough/sample_scene.py, one entry per Python statement:
circle = Circle(); circle.set_stroke(BLUE_E, width=4);
self.play(ShowCreation(circle)); square = Square();
self.play(ReplacementTransform(circle, square));
self.play(square.animate.set_fill(RED_D, opacity=0.5),
self.frame.animate.set_width(25)). -/
def MyFirstManimNotebook.constructStmts : List Stmt :=
  [ .simple [.construct .circle .Circle],
    .simple [.setter .circle (.set_stroke .BLUE_E 4)],
    .simple [.play [.ShowCreation .circle]],
    .simple [.construct .square .Square],
    .simple [.play [.ReplacementTransform .circle .square]],
    .simple [.play [.animate_set_fill .square .RED_D (1/2),
                    .animate_set_width .frame 25]] ]

/-- Embedding of the module-level binding
ASSETS = Path(os.path.abspath(__file__)).parent.parent / "assets"
from src/scripts/make_manim_notebook_logo.py.  The absolute path of the
script file is a component list; Path.parent drops the last component and
the / operator appends one. -/
def ASSETS (file_abs : List String) : List String :=
  (file_abs.dropLast).dropLast ++ ["assets"]

/-- Embedding of ManimNotebookLogo.construct from
src/scripts/make_manim_notebook_logo.py, parameterised by the absolute path
of the script file (which determines ASSETS), one entry per Python
statement, with chained constructor/setter expressions expanded into their
call sequences in evaluation order. -/
def ManimNotebookLogo.constructStmts (file_abs : List String) : List Stmt :=
  [ .simple [.construct .tex_of_M (.Tex "\\mathbb{M}" 400),
             .setter .tex_of_M (.set_color .BLUE_C),
             .setter .tex_of_M (.set_opacity (1/2))],
    .simple [.construct .glowdot (.GlowDot .WHITE (3/2) (7/4)),
             .setter .glowdot (.shift ⟨47/50, 7/10, 0⟩)],
    .simple [.construct .svg_of_notebook
               (.SVGMobject (ASSETS file_abs ++ ["NotebookLogoWhite.svg"]) 9),
             .setter .svg_of_notebook (.shift ⟨0, -(3/20), 0⟩)],
    .simple [.play [.Write .tex_of_M, .Write .svg_of_notebook]],
    .simple [.add .glowdot] ]

/-- The animation lists passed to self.play, in statement order. -/
def playsOf (cs : List Call) : List (List Anim) :=
  cs.filterMap fun c =>
    match c with
    | .play anims => some anims
    | _ => none

/-- Mobjects an animation reads or writes. -/
def Anim.targets : Anim → List MId
  | .ShowCreation m => [m]
  | .ReplacementTransform src tgt => [src, tgt]
  | .Write m => [m]
  | .animate_set_fill m _ _ => [m]
  | .animate_set_width m _ => [m]

/-- Mobject variables a call references; a constructor call references
none (its arguments are literals or the module-level ASSETS path). -/
def Call.refs : Call → List MId
  | .construct _ _ => []
  | .setter m _ => [m]
  | .play anims => (anims.map Anim.targets).flatten
  | .add m => [m]
  | .wait _ => []

/-- Mobject variable a call binds: only a constructor call binds one. -/
def Call.defines : Call → List MId
  | .construct m _ => [m]
  | _ => []

/-- Script-internal failure: referencing a mobject variable that has not
been bound (a Python NameError).  This is the only error branch the
scripts themselves could take; external library failures are modelled
separately by the oracle semantics below. -/
inductive ScriptErr
  | nameError (m : MId)
deriving DecidableEq, Repr

/-- First unresolvable reference among ms given the bound variables env.
The camera frame is provided by the Scene base class and always resolves. -/
def unresolvedRef (env : List MId) (ms : List MId) : Option MId :=
  ms.find? fun m => !(env.contains m || m == .frame)

/-- Run a call sequence, threading the list of bound mobject variables and
failing on the first unresolvable reference. -/
def runCalls (env : List MId) : List Call → Except ScriptErr (List MId)
  | [] => .ok env
  | c :: rest =>
    match unresolvedRef env c.refs with
    | some m => .error (.nameError m)
    | none => runCalls (c.defines ++ env) rest

/-- Run a statement list under the success semantics of external library
calls: only script-internal name errors can occur, and a try/except
statement runs its handler when its body fails. -/
def runStmts (env : List MId) : List Stmt → Except ScriptErr (List MId)
  | [] => .ok env
  | .simple cs :: rest =>
    match runCalls env cs with
    | .error e => .error e
    | .ok env1 => runStmts env1 rest
  | .tryExcept body handler :: rest =>
    match runCalls env body with
    | .error _ =>
      match runCalls env handler with
      | .error e => .error e
      | .ok env1 => runStmts env1 rest
    | .ok env1 => runStmts env1 rest

/-- Visual attributes named by the specification. -/
inductive Attr
  | color
  | opacity
  | strokeWidth
  | position
deriving DecidableEq, Repr

/-- Attributes a direct setter method assigns: set_stroke assigns the
stroke color and the stroke width, set_color the color, set_opacity the
opacity, and shift the position. -/
def Setter.attrs : Setter → List Attr
  | .set_stroke _ _ => [.color, .strokeWidth]
  | .set_color _ => [.color]
  | .set_opacity _ => [.opacity]
  | .shift _ => [.position]

/-- The (mobject, attribute) pairs assigned by direct setter calls, in
order, one entry per attribute assignment. -/
def directSetterAttrs (cs : List Call) : List (MId × Attr) :=
  (cs.map fun c =>
    match c with
    | .setter m s => s.attrs.map fun a => (m, a)
    | _ => []).flatten

/-- Mobjects an animation introduces into the visible scene: ShowCreation
and Write introduce their target, and ReplacementTransform introduces its
target shape while its source is replaced. -/
def Anim.introduces : Anim → List MId
  | .ShowCreation m => [m]
  | .ReplacementTransform _ tgt => [tgt]
  | .Write m => [m]
  | _ => []

/-- Mobjects that become visible through a played animation transition. -/
def introducedByPlay (cs : List Call) : List MId :=
  (cs.map fun c =>
    match c with
    | .play anims => (anims.map Anim.introduces).flatten
    | _ => []).flatten

/-- Mobjects that become visible through a direct add to the scene. -/
def introducedByAdd (cs : List Call) : List MId :=
  cs.filterMap fun c =>
    match c with
    | .add m => some m
    | _ => none

/-- All mobjects that become visible in the scene: those introduced by a
played animation and those added directly. -/
def visibleMobjects (cs : List Call) : List MId :=
  introducedByPlay cs ++ introducedByAdd cs

/-- All mobject references made by a call list, in order. -/
def refsIn (cs : List Call) : List MId :=
  (cs.map Call.refs).flatten

/-- A concrete absolute path for the logo script file, used to instantiate
the path-generic theorems: /repo/scripts/make_manim_notebook_logo.py. -/
def logoPath : List String :=
  ["", "repo", "scripts", "make_manim_notebook_logo.py"]

/-- Whether a statement is a try/except statement. -/
def Stmt.isTryExcept : Stmt → Bool
  | .tryExcept _ _ => true
  | _ => false

/-- Whether a statement list contains an exception handler. -/
def hasHandler (ss : List Stmt) : Bool :=
  ss.any Stmt.isTryExcept

/-- External-failure semantics for a call sequence.  The oracle assigns to
each global call position an optional exception (exceptions are abstract
identities).  Starting at position i, each call either raises the oracle's
exception for its position or succeeds; the result is the next position. -/
def runCallsExt (oracle : Nat → Option Nat) : Nat → List Call → Except Nat Nat
  | i, [] => .ok i
  | i, _ :: rest =>
    match oracle i with
    | some e => .error e
    | none => runCallsExt oracle (i + 1) rest

/-- External-failure semantics for a statement list: an exception raised in
a try body transfers control to the handler; any other exception propagates
unchanged to the caller. -/
def runStmtsExt (oracle : Nat → Option Nat) : Nat → List Stmt → Except Nat Nat
  | i, [] => .ok i
  | i, .simple cs :: rest =>
    match runCallsExt oracle i cs with
    | .error e => .error e
    | .ok j => runStmtsExt oracle j rest
  | i, .tryExcept body handler :: rest =>
    match runCallsExt oracle i body with
    | .error _ =>
      match runCallsExt oracle (i + body.length) handler with
      | .error e => .error e
      | .ok j => runStmtsExt oracle j rest
    | .ok j => runStmtsExt oracle j rest

/-- A concrete failure oracle: the call at position 2 raises exception 7
and every other call succeeds. -/
def oracleAtTwo : Nat → Option Nat :=
  fun j => if j = 2 then some 7 else none

/-- Kind of a module-level binding in a script file. -/
inductive PyBindKind
  | sceneClass
  | path
  | mobject
deriving DecidableEq, Repr

/-- Model of one Python source file: the Scene subclasses it defines, its
module-level bindings with their kinds, and the names it references without
defining them itself. -/
structure PyFile where
  sceneClasses : List String
  moduleBindings : List (String × PyBindKind)
  referencedNames : List String

/-- Names a file binds at module level. -/
def PyFile.definedNames (f : PyFile) : List String :=
  f.moduleBindings.map Prod.fst

/-- Model of src/src/walkthrough/sample_scene.py at module level: it
defines the single Scene subclass MyFirstManimNotebook and references only
names imported from manimlib. -/
def sampleFile : PyFile :=
  ⟨["MyFirstManimNotebook"],
   [("MyFirstManimNotebook", .sceneClass)],
   ["Scene", "Circle", "BLUE_E", "ShowCreation", "Square",
    "ReplacementTransform", "RED_D"]⟩

/-- Model of src/scripts/make_manim_notebook_logo.py at module level: it
defines the single Scene subclass ManimNotebookLogo and the module-level
path binding ASSETS, and references names from manimlib, os and pathlib. -/
def logoFile : PyFile :=
  ⟨["ManimNotebookLogo"],
   [("ASSETS", .path), ("ManimNotebookLogo", .sceneClass)],
   ["Scene", "Tex", "BLUE_C", "GlowDot", "WHITE", "SVGMobject",
    "Write", "os", "Path"]⟩

/-- Library function a constructor call invokes. -/
def Ctor.apiName : Ctor → String
  | .Circle => "Circle"
  | .Square => "Square"
  | .Tex _ _ => "Tex"
  | .GlowDot _ _ _ => "GlowDot"
  | .SVGMobject _ _ => "SVGMobject"

/-- Library method a setter call invokes. -/
def Setter.apiName : Setter → String
  | .set_stroke _ _ => "set_stroke"
  | .set_color _ => "set_color"
  | .set_opacity _ => "set_opacity"
  | .shift _ => "shift"

/-- Library animation class or builder an animation invokes. -/
def Anim.apiName : Anim → String
  | .ShowCreation _ => "ShowCreation"
  | .ReplacementTransform _ _ => "ReplacementTransform"
  | .Write _ => "Write"
  | .animate_set_fill _ _ _ => "animate.set_fill"
  | .animate_set_width _ _ => "animate.set_width"

/-- Library functions a call invokes. -/
def Call.apiNames : Call → List String
  | .construct _ c => [c.apiName]
  | .setter _ s => [s.apiName]
  | .play anims => "play" :: anims.map Anim.apiName
  | .add _ => ["add"]
  | .wait _ => ["wait"]

/-- Names provided by the external manimlib library (Scene methods and the
animate builders included) that the scripts invoke. -/
def manimlibProvided : List String :=
  ["Circle", "Square", "Tex", "GlowDot", "SVGMobject",
   "set_stroke", "set_color", "set_opacity", "shift",
   "play", "add", "wait",
   "ShowCreation", "ReplacementTransform", "Write",
   "animate.set_fill", "animate.set_width"]

/-- Big-step execution relation for a statement list under the success
semantics of external calls: Exec ss env tr env2 holds when running ss from
bound mobject variables env performs exactly the library-call trace tr and
ends with bound variables env2.  Each statement requires its calls to
resolve, exactly as runCalls checks. -/
inductive Exec : List Stmt → List MId → List Call → List MId → Prop
  | nil (env : List MId) : Exec [] env [] env
  | simple {cs rest env env1 tr env2} :
      runCalls env cs = .ok env1 →
      Exec rest env1 tr env2 →
      Exec (.simple cs :: rest) env (cs ++ tr) env2
  | tryBody {body handler rest env env1 tr env2} :
      runCalls env body = .ok env1 →
      Exec rest env1 tr env2 →
      Exec (.tryExcept body handler :: rest) env (body ++ tr) env2

/-- Check that every call of a sequence references only mobjects already
constructed (the camera frame apart), threading bindings left to right. -/
def usesOnlyCreated (env : List MId) : List Call → Bool
  | [] => true
  | c :: rest =>
    c.refs.all (fun m => env.contains m || m == .frame) &&
      usesOnlyCreated (c.defines ++ env) rest

/-- Mobjects constructed by a call list, in order. -/
def createdMobjects (cs : List Call) : List MId :=
  cs.filterMap fun c =>
    match c with
    | .construct m _ => some m
    | _ => none

/-- Drawable mobjects a call list mentions: every constructed or referenced
mobject other than the scene's built-in camera frame. -/
def drawableMentioned (cs : List Call) : List MId :=
  ((cs.map fun c => c.defines ++ c.refs).flatten).filter fun m => !(m == .frame)

end ManimNotebook

namespace ManimNotebook

/-- Claim C1: in MyFirstManimNotebook.construct the visual steps occur in
exactly the written order: the circle is constructed and styled and shown
via ShowCreation, then transformed into the square via ReplacementTransform,
then the square is filled red with opacity 0.5 while the camera frame is
widened to 25, and the played animation steps are exactly these three in
this order. -/
theorem C1_sample_scene_step_order :
    callsOf MyFirstManimNotebook.constructStmts =
      [ .construct .circle .Circle,
        .setter .circle (.set_stroke .BLUE_E 4),
        .play [.ShowCreation .circle],
        .construct .square .Square,
        .play [.ReplacementTransform .circle .square],
        .play [.animate_set_fill .square .RED_D (1/2),
               .animate_set_width .frame 25] ] ∧
    playsOf (callsOf MyFirstManimNotebook.constructStmts) =
      [ [.ShowCreation .circle],
        [.ReplacementTransform .circle .square],
        [.animate_set_fill .square .RED_D (1/2),
         .animate_set_width .frame 25] ] := by
  constructor <;> rfl

/-- Claim C4: under the success semantics of external library calls and
asset lookups, each construct method runs to completion without raising an
error: the interpreter returns ok with exactly the mobjects each script
bound, so the internal name-error branch is unreachable. -/
theorem C4_construct_completes (file_abs : List String) :
    runStmts [] MyFirstManimNotebook.constructStmts =
      .ok [.square, .circle] ∧
    runStmts [] (ManimNotebookLogo.constructStmts file_abs) =
      .ok [.svg_of_notebook, .glowdot, .tex_of_M] :=
  ⟨rfl, rfl⟩

/-- Claim C3: for every mobject created in either script, each visual
attribute (color, opacity, stroke width, position) is assigned by at most
one direct setter call: the list of (mobject, attribute) assignments made
by direct setters has no duplicate. -/
theorem C3_direct_setters_at_most_once (file_abs : List String) :
    (directSetterAttrs (callsOf MyFirstManimNotebook.constructStmts)).Nodup ∧
    (directSetterAttrs (callsOf (ManimNotebookLogo.constructStmts file_abs))).Nodup := by
  constructor
  · decide
  · have h : directSetterAttrs (callsOf (ManimNotebookLogo.constructStmts file_abs)) =
        [(.tex_of_M, .color), (.tex_of_M, .opacity),
         (.glowdot, .position), (.svg_of_notebook, .position)] := rfl
    rw [h]
    decide

/-- Claim C2 fails as stated: the logo script's glowdot becomes visible in
the scene, but it is introduced by a direct self.add call and is never the
target of any played animation transition. -/
theorem C2_counterexample_glowdot :
    MId.glowdot ∈
      visibleMobjects (callsOf (ManimNotebookLogo.constructStmts logoPath)) ∧
    MId.glowdot ∉
      introducedByPlay (callsOf (ManimNotebookLogo.constructStmts logoPath)) := by
  decide

/-- Claim C2 amended: every mobject that becomes visible in either scene is
introduced by playing an animation transition, with the single exception of
the logo script's glowdot, which is made visible by a direct add call. -/
theorem C2_visibility_introduced_by_play (file_abs : List String) :
    (∀ m, m ∈ visibleMobjects (callsOf MyFirstManimNotebook.constructStmts) →
      m ∈ introducedByPlay (callsOf MyFirstManimNotebook.constructStmts)) ∧
    (∀ m, m ∈ visibleMobjects (callsOf (ManimNotebookLogo.constructStmts file_abs)) →
      m = .glowdot ∨
        m ∈ introducedByPlay (callsOf (ManimNotebookLogo.constructStmts file_abs))) ∧
    MId.glowdot ∈
      introducedByAdd (callsOf (ManimNotebookLogo.constructStmts file_abs)) := by
  refine ⟨by decide, ?_, ?_⟩
  · have h1 : visibleMobjects (callsOf (ManimNotebookLogo.constructStmts file_abs)) =
        [.tex_of_M, .svg_of_notebook, .glowdot] := rfl
    have h2 : introducedByPlay (callsOf (ManimNotebookLogo.constructStmts file_abs)) =
        [.tex_of_M, .svg_of_notebook] := rfl
    rw [h1, h2]
    decide
  · have h3 : introducedByAdd (callsOf (ManimNotebookLogo.constructStmts file_abs)) =
        [.glowdot] := rfl
    rw [h3]
    decide

/-- Witness for the amended C2 theorem at a concrete input: the circle of
the sample scene is visible and indeed introduced by a played animation. -/
theorem C2_visibility_introduced_by_play_witness :
    MId.circle ∈ introducedByPlay (callsOf MyFirstManimNotebook.constructStmts) :=
  (C2_visibility_introduced_by_play logoPath).1 MId.circle (by decide)

/-- Claim C10: after the ReplacementTransform that turns the circle into
the square (the fifth call of the sample scene), every operation references
only the square or the camera frame, and the circle is never referenced. -/
theorem C10_circle_unused_after_transform :
    (∀ m, m ∈ refsIn ((callsOf MyFirstManimNotebook.constructStmts).drop 5) →
      m = .square ∨ m = .frame) ∧
    MId.circle ∉ refsIn ((callsOf MyFirstManimNotebook.constructStmts).drop 5) := by
  decide

/-- Witness for the C10 theorem at a concrete input: the square is indeed
referenced after the transform, and it is the square or the frame. -/
theorem C10_circle_unused_after_transform_witness :
    MId.square ∈ refsIn ((callsOf MyFirstManimNotebook.constructStmts).drop 5) ∧
    (MId.square = .square ∨ MId.square = .frame) :=
  ⟨by decide, C10_circle_unused_after_transform.1 MId.square (by decide)⟩

/-- Helper: a call sequence all of whose calls succeed runs to the position
past its last call. -/
theorem runCallsExt_ok (oracle : Nat → Option Nat) (cs : List Call) (k : Nat)
    (h : ∀ j, j < cs.length → oracle (k + j) = none) :
    runCallsExt oracle k cs = .ok (k + cs.length) := by
  induction cs generalizing k with
  | nil => rfl
  | cons c rest ih =>
    have h0 : oracle k = none := by simpa using h 0 (by simp)
    have hrec := ih (k + 1) fun j hj => by
      have heq : k + 1 + j = k + (j + 1) := by omega
      rw [heq]
      exact h (j + 1) (by simp only [List.length_cons]; omega)
    simp only [runCallsExt, h0]
    rw [hrec]
    simp only [List.length_cons]
    congr 1
    omega

/-- Helper: if the call at relative position i fails with exception e and
all earlier calls succeed, the call sequence raises exactly e. -/
theorem runCallsExt_error (oracle : Nat → Option Nat) (cs : List Call) (k i e : Nat)
    (hi : i < cs.length) (hsome : oracle (k + i) = some e)
    (hnone : ∀ j, j < i → oracle (k + j) = none) :
    runCallsExt oracle k cs = .error e := by
  induction cs generalizing k i with
  | nil => simp at hi
  | cons c rest ih =>
    cases i with
    | zero =>
      have h0 : oracle k = some e := by simpa using hsome
      simp [runCallsExt, h0]
    | succ i1 =>
      have h0 : oracle k = none := by simpa using hnone 0 (Nat.succ_pos i1)
      simp only [runCallsExt, h0]
      apply ih (k + 1) i1
      · simp only [List.length_cons] at hi
        omega
      · have heq : k + 1 + i1 = k + (i1 + 1) := by omega
        rw [heq]
        exact hsome
      · intro j hj
        have heq : k + 1 + j = k + (j + 1) := by omega
        rw [heq]
        exact hnone (j + 1) (by omega)

/-- Helper: in a handler-free statement list, if the call at relative
position i fails with exception e and all earlier calls succeed, the whole
run raises exactly e: the exception propagates unchanged. -/
theorem runStmtsExt_error (oracle : Nat → Option Nat) (ss : List Stmt) (k i e : Nat)
    (hh : hasHandler ss = false)
    (hi : i < (callsOf ss).length) (hsome : oracle (k + i) = some e)
    (hnone : ∀ j, j < i → oracle (k + j) = none) :
    runStmtsExt oracle k ss = .error e := by
  induction ss generalizing k i with
  | nil => simp [callsOf] at hi
  | cons s rest ih =>
    cases s with
    | tryExcept body handler => simp [hasHandler, Stmt.isTryExcept] at hh
    | simple cs =>
      have hh1 : hasHandler rest = false := by
        simpa [hasHandler, Stmt.isTryExcept] using hh
      have hlen : (callsOf (.simple cs :: rest)).length =
          cs.length + (callsOf rest).length := by
        simp [callsOf, callsOfStmt]
      by_cases hcase : i < cs.length
      · have hc := runCallsExt_error oracle cs k i e hcase hsome hnone
        simp [runStmtsExt, hc]
      · have hok := runCallsExt_ok oracle cs k fun j hj =>
          hnone j (by omega)
        simp only [runStmtsExt, hok]
        apply ih (k + cs.length) (i - cs.length)
        · exact hh1
        · rw [hlen] at hi
          omega
        · have heq : k + cs.length + (i - cs.length) = k + i := by omega
          rw [heq]
          exact hsome
        · intro j hj
          have heq : k + cs.length + j = k + (cs.length + j) := by omega
          rw [heq]
          exact hnone (cs.length + j) (by omega)

/-- Claim C5: neither script contains an exception handler, and for every
failure an external library call raises during construct (modelled by an
oracle assigning an exception to a call position, earlier calls
succeeding), the same exception propagates unchanged to the caller. -/
theorem C5_exceptions_propagate (file_abs : List String)
    (oracle : Nat → Option Nat) (i e : Nat)
    (hsome : oracle i = some e) (hnone : ∀ j, j < i → oracle j = none) :
    hasHandler MyFirstManimNotebook.constructStmts = false ∧
    hasHandler (ManimNotebookLogo.constructStmts file_abs) = false ∧
    (i < (callsOf MyFirstManimNotebook.constructStmts).length →
      runStmtsExt oracle 0 MyFirstManimNotebook.constructStmts = .error e) ∧
    (i < (callsOf (ManimNotebookLogo.constructStmts file_abs)).length →
      runStmtsExt oracle 0 (ManimNotebookLogo.constructStmts file_abs) = .error e) := by
  refine ⟨rfl, rfl, ?_, ?_⟩
  · intro hi
    exact runStmtsExt_error oracle _ 0 i e rfl hi (by simpa using hsome)
      fun j hj => by simpa using hnone j hj
  · intro hi
    exact runStmtsExt_error oracle _ 0 i e rfl hi (by simpa using hsome)
      fun j hj => by simpa using hnone j hj

/-- Witness for the C5 theorem at a concrete input: under the oracle whose
third call raises exception 7, the sample scene run raises exactly 7. -/
theorem C5_exceptions_propagate_witness :
    runStmtsExt oracleAtTwo 0 MyFirstManimNotebook.constructStmts = .error 7 :=
  (C5_exceptions_propagate logoPath oracleAtTwo 2 7 (by decide)
    (by decide)).2.2.1 (by decide)

/-- Claim C6: the two source files are independent: each defines exactly
one Scene subclass, neither file references a name the other defines, and
every call either construct method performs invokes a library-provided
primitive, in the literal statement sequence recorded by callsOf. -/
theorem C6_files_independent (file_abs : List String) :
    sampleFile.sceneClasses = ["MyFirstManimNotebook"] ∧
    logoFile.sceneClasses = ["ManimNotebookLogo"] ∧
    (sampleFile.referencedNames.all fun n =>
      !(logoFile.definedNames.contains n)) = true ∧
    (logoFile.referencedNames.all fun n =>
      !(sampleFile.definedNames.contains n)) = true ∧
    ((callsOf MyFirstManimNotebook.constructStmts).all fun c =>
      c.apiNames.all fun n => manimlibProvided.contains n) = true ∧
    ((callsOf (ManimNotebookLogo.constructStmts file_abs)).all fun c =>
      c.apiNames.all fun n => manimlibProvided.contains n) = true := by
  exact ⟨rfl, rfl, by decide, by decide, by decide, rfl⟩

/-- Helper: the trace of a successful execution is the literal call list of
the statement sequence. -/
theorem Exec.trace_eq {ss : List Stmt} {env : List MId} {tr : List Call}
    {env2 : List MId} (h : Exec ss env tr env2) : tr = callsOf ss := by
  induction h with
  | nil env => rfl
  | simple hc hrest ih => simp [callsOf, callsOfStmt, ih]
  | tryBody hc hrest ih => simp [callsOf, callsOfStmt, ih]

/-- Helper: the big-step execution relation is deterministic: two
executions of the same statement list from the same bound variables perform
the same trace and end in the same bound variables. -/
theorem Exec.deterministic {ss : List Stmt} {env : List MId}
    {tr1 : List Call} {env1 : List MId} {tr2 : List Call} {env2 : List MId}
    (h1 : Exec ss env tr1 env1) (h2 : Exec ss env tr2 env2) :
    tr1 = tr2 ∧ env1 = env2 := by
  revert h2
  induction h1 generalizing tr2 env2 with
  | nil env =>
    intro h2
    cases h2
    exact ⟨rfl, rfl⟩
  | simple hc hrest ih =>
    intro h2
    cases h2 with
    | simple hc2 hrest2 =>
      rw [hc] at hc2
      injection hc2 with henv
      subst henv
      obtain ⟨htr, he⟩ := ih hrest2
      exact ⟨by rw [htr], he⟩
  | tryBody hc hrest ih =>
    intro h2
    cases h2 with
    | tryBody hc2 hrest2 =>
      rw [hc] at hc2
      injection hc2 with henv
      subst henv
      obtain ⟨htr, he⟩ := ih hrest2
      exact ⟨by rw [htr], he⟩

/-- Claim C7: each script's construct method is deterministic: any two
executions of its statement list from the same initial bound variables
perform the same library-call trace with the same arguments, end in the
same state, and that trace is the literal statement order. -/
theorem C7_construct_deterministic (file_abs : List String) (ss : List Stmt)
    (env env1 env2 : List MId) (tr1 tr2 : List Call)
    (_hss : ss = MyFirstManimNotebook.constructStmts ∨
      ss = ManimNotebookLogo.constructStmts file_abs)
    (h1 : Exec ss env tr1 env1) (h2 : Exec ss env tr2 env2) :
    tr1 = tr2 ∧ env1 = env2 ∧ tr1 = callsOf ss :=
  ⟨(h1.deterministic h2).1, (h1.deterministic h2).2, h1.trace_eq⟩

/-- Witness for the C7 theorem at a concrete input: the sample scene run
from the empty environment, exhibited twice. -/
theorem C7_construct_deterministic_witness :
    callsOf MyFirstManimNotebook.constructStmts =
      callsOf MyFirstManimNotebook.constructStmts ∧
    ([MId.square, MId.circle] : List MId) = [MId.square, MId.circle] ∧
    callsOf MyFirstManimNotebook.constructStmts =
      callsOf MyFirstManimNotebook.constructStmts := by
  have hrun : Exec MyFirstManimNotebook.constructStmts []
      (callsOf MyFirstManimNotebook.constructStmts) [MId.square, MId.circle] :=
    Exec.simple rfl (Exec.simple rfl (Exec.simple rfl (Exec.simple rfl
      (Exec.simple rfl (Exec.simple rfl (Exec.nil _))))))
  exact C7_construct_deterministic logoPath MyFirstManimNotebook.constructStmts
    [] [MId.square, MId.circle] [MId.square, MId.circle]
    (callsOf MyFirstManimNotebook.constructStmts)
    (callsOf MyFirstManimNotebook.constructStmts)
    (Or.inl rfl) hrun hrun

/-- Claim C8: every drawable mobject either script mentions (the built-in
camera frame apart, which the spec glossary excludes from mobjects) is
constructed inside construct, exactly once, every call referencing it comes
at or after its construction, and no module-level binding of either file
holds a mobject, so none outlives the scene. -/
theorem C8_mobject_lifecycle (file_abs : List String) :
    (∀ m, m ∈ drawableMentioned (callsOf MyFirstManimNotebook.constructStmts) →
      m ∈ createdMobjects (callsOf MyFirstManimNotebook.constructStmts)) ∧
    (∀ m, m ∈ drawableMentioned (callsOf (ManimNotebookLogo.constructStmts file_abs)) →
      m ∈ createdMobjects (callsOf (ManimNotebookLogo.constructStmts file_abs))) ∧
    (createdMobjects (callsOf MyFirstManimNotebook.constructStmts)).Nodup ∧
    (createdMobjects (callsOf (ManimNotebookLogo.constructStmts file_abs))).Nodup ∧
    usesOnlyCreated [] (callsOf MyFirstManimNotebook.constructStmts) = true ∧
    usesOnlyCreated [] (callsOf (ManimNotebookLogo.constructStmts file_abs)) = true ∧
    (sampleFile.moduleBindings.all fun b => !(b.2 == PyBindKind.mobject)) = true ∧
    (logoFile.moduleBindings.all fun b => !(b.2 == PyBindKind.mobject)) = true := by
  have hd : drawableMentioned (callsOf (ManimNotebookLogo.constructStmts file_abs)) =
      [.tex_of_M, .tex_of_M, .tex_of_M, .glowdot, .glowdot, .svg_of_notebook,
       .svg_of_notebook, .tex_of_M, .svg_of_notebook, .glowdot] := rfl
  have hc : createdMobjects (callsOf (ManimNotebookLogo.constructStmts file_abs)) =
      [.tex_of_M, .glowdot, .svg_of_notebook] := rfl
  refine ⟨by decide, ?_, by decide, ?_, by decide, rfl, by decide, by decide⟩
  · rw [hd, hc]
    decide
  · rw [hc]
    decide

/-- Witness for the C8 theorem at a concrete input: the logo's glowdot is
mentioned and indeed constructed inside construct. -/
theorem C8_mobject_lifecycle_witness :
    MId.glowdot ∈ createdMobjects (callsOf (ManimNotebookLogo.constructStmts logoPath)) :=
  (C8_mobject_lifecycle logoPath).2.1 MId.glowdot (by decide)

/-- Claim C9: the module-level ASSETS path is the directory two levels
above the script file joined with assets, and the SVGMobject is constructed
from exactly that directory's file NotebookLogoWhite.svg with stroke width
9, then shifted by (0, -0.15, 0). -/
theorem C9_assets_path (d : List String) (s f : String) :
    ASSETS (d ++ [s, f]) = d ++ ["assets"] ∧
    (callsOf (ManimNotebookLogo.constructStmts (d ++ [s, f])))[5]? =
      some (.construct .svg_of_notebook
        (.SVGMobject (ASSETS (d ++ [s, f]) ++ ["NotebookLogoWhite.svg"]) 9)) ∧
    (callsOf (ManimNotebookLogo.constructStmts (d ++ [s, f])))[6]? =
      some (.setter .svg_of_notebook (.shift ⟨0, -(3/20), 0⟩)) := by
  refine ⟨?_, rfl, rfl⟩
  show ((d ++ [s, f]).dropLast).dropLast ++ ["assets"] = d ++ ["assets"]
  simp

end ManimNotebook
